import Mathlib

/-!
Verification of the cgmath vector library (src/vec.rs, src/mask.rs,
src/num/mod.rs) against its natural-language specification.

The three vector structs `Vec2`, `Vec3`, `Vec4` are embedded as Lean
structures generic over the component type, exactly mirroring the Rust
declarations.  Rust's generic scalar `T: Scalar` is instantiated at `ℤ`
for the 32/64-bit signed integers and at `ℝ` for the 32/64-bit floats
(idealized real-number semantics for float arithmetic; the branch
structure of the code is preserved verbatim).
-/

namespace Cgm

/-- A 2-dimensional vector (vec.rs:278-281). -/
structure Vec2 (T : Type) where
  x : T
  y : T
deriving DecidableEq

/-- A 3-dimensional vector (vec.rs:286-290). -/
structure Vec3 (T : Type) where
  x : T
  y : T
  z : T
deriving DecidableEq

/-- A 4-dimensional vector (vec.rs:295-300). -/
structure Vec4 (T : Type) where
  x : T
  y : T
  z : T
  w : T
deriving DecidableEq

variable {T : Type}

/-! ### set_<axis> (vec.rs:333-362) -/

/-- Sets the `x` component (vec.rs:340). -/
def Vec2.set_x (v : Vec2 T) (x : T) : Vec2 T := ⟨x, v.y⟩

/-- Sets the `y` component (vec.rs:342). -/
def Vec2.set_y (v : Vec2 T) (y : T) : Vec2 T := ⟨v.x, y⟩

/-- Sets the `x` component (vec.rs:346). -/
def Vec3.set_x (v : Vec3 T) (x : T) : Vec3 T := ⟨x, v.y, v.z⟩

/-- Sets the `y` component (vec.rs:348). -/
def Vec3.set_y (v : Vec3 T) (y : T) : Vec3 T := ⟨v.x, y, v.z⟩

/-- Sets the `z` component (vec.rs:350). -/
def Vec3.set_z (v : Vec3 T) (z : T) : Vec3 T := ⟨v.x, v.y, z⟩

/-- Sets the `x` component (vec.rs:354). -/
def Vec4.set_x (v : Vec4 T) (x : T) : Vec4 T := ⟨x, v.y, v.z, v.w⟩

/-- Sets the `y` component (vec.rs:356). -/
def Vec4.set_y (v : Vec4 T) (y : T) : Vec4 T := ⟨v.x, y, v.z, v.w⟩

/-- Sets the `z` component (vec.rs:358). -/
def Vec4.set_z (v : Vec4 T) (z : T) : Vec4 T := ⟨v.x, v.y, z, v.w⟩

/-- Sets the `w` component (vec.rs:360). -/
def Vec4.set_w (v : Vec4 T) (w : T) : Vec4 T := ⟨v.x, v.y, v.z, w⟩

/-! ### reduce / fold (vec.rs:467-476)

The Rust bodies expand a left-nested accumulation macro whose order is
pinned by the doctest at vec.rs:102-104: `reduce` seeds with `x`,
`fold` with the explicit accumulator, both proceeding x, y, z, w. -/

/-- Reduces the vector; `x` seeds the accumulator (vec.rs:468-471). -/
def Vec2.reduce (v : Vec2 T) (f : T → T → T) : T := f v.x v.y

/-- Folds the vector from an explicit accumulator (vec.rs:473-476). -/
def Vec2.fold (v : Vec2 T) (acc : T) (f : T → T → T) : T := f (f acc v.x) v.y

/-- Reduces the vector; `x` seeds the accumulator (vec.rs:468-471). -/
def Vec3.reduce (v : Vec3 T) (f : T → T → T) : T := f (f v.x v.y) v.z

/-- Folds the vector from an explicit accumulator (vec.rs:473-476). -/
def Vec3.fold (v : Vec3 T) (acc : T) (f : T → T → T) : T := f (f (f acc v.x) v.y) v.z

/-- Reduces the vector; `x` seeds the accumulator (vec.rs:468-471). -/
def Vec4.reduce (v : Vec4 T) (f : T → T → T) : T := f (f (f v.x v.y) v.z) v.w

/-- Folds the vector from an explicit accumulator (vec.rs:473-476). -/
def Vec4.fold (v : Vec4 T) (acc : T) (f : T → T → T) : T := f (f (f (f acc v.x) v.y) v.z) v.w

/-! ### Vec2-exclusive operations (vec.rs:389-398) and Vec3 cross (vec.rs:400-407) -/

/-- Rotates the vector counter-clockwise by 90 degrees (vec.rs:393). -/
def Vec2.ccw [Neg T] (v : Vec2 T) : Vec2 T := ⟨v.y, -v.x⟩

/-- Rotates the vector clockwise by 90 degrees (vec.rs:395). -/
def Vec2.cw [Neg T] (v : Vec2 T) : Vec2 T := ⟨-v.y, v.x⟩

/-- The 3D cross product of the inputs extended with `z = 0`, returning its magnitude (vec.rs:397). -/
def Vec2.cross [Mul T] [Sub T] (v rhs : Vec2 T) : T := v.x * rhs.y - v.y * rhs.x

/-- The 3D cross product (vec.rs:401-407). -/
def Vec3.cross [Mul T] [Sub T] (v rhs : Vec3 T) : Vec3 T :=
  ⟨v.y * rhs.z - v.z * rhs.y, v.z * rhs.x - v.x * rhs.z, v.x * rhs.y - v.y * rhs.x⟩

/-! ### Comparison masks (mask.rs:85-112, identical expansion in vec.rs:615-642) -/

/-- Masks if the components are equal (mask.rs:86-88). -/
def Vec2.eq [DecidableEq T] (v rhs : Vec2 T) : Vec2 Bool :=
  ⟨decide (v.x = rhs.x), decide (v.y = rhs.y)⟩

/-- Masks if the components are equal (mask.rs:86-88). -/
def Vec3.eq [DecidableEq T] (v rhs : Vec3 T) : Vec3 Bool :=
  ⟨decide (v.x = rhs.x), decide (v.y = rhs.y), decide (v.z = rhs.z)⟩

/-- Masks if the components are equal (mask.rs:86-88). -/
def Vec4.eq [DecidableEq T] (v rhs : Vec4 T) : Vec4 Bool :=
  ⟨decide (v.x = rhs.x), decide (v.y = rhs.y), decide (v.z = rhs.z), decide (v.w = rhs.w)⟩

/-- Masks if the left-hand components are less than the right-hand side (mask.rs:94-96). -/
def Vec2.lt [LinearOrder T] (v rhs : Vec2 T) : Vec2 Bool :=
  ⟨decide (v.x < rhs.x), decide (v.y < rhs.y)⟩

/-- Masks if the left-hand components are less than the right-hand side (mask.rs:94-96). -/
def Vec3.lt [LinearOrder T] (v rhs : Vec3 T) : Vec3 Bool :=
  ⟨decide (v.x < rhs.x), decide (v.y < rhs.y), decide (v.z < rhs.z)⟩

/-- Masks if the left-hand components are less than the right-hand side (mask.rs:94-96). -/
def Vec4.lt [LinearOrder T] (v rhs : Vec4 T) : Vec4 Bool :=
  ⟨decide (v.x < rhs.x), decide (v.y < rhs.y), decide (v.z < rhs.z), decide (v.w < rhs.w)⟩

/-- Selects components from `v` where the mask is true, else from `rhs` (mask.rs:110-112). -/
def Vec2.select (v rhs : Vec2 T) (mask : Vec2 Bool) : Vec2 T :=
  ⟨if mask.x then v.x else rhs.x, if mask.y then v.y else rhs.y⟩

/-- Selects components from `v` where the mask is true, else from `rhs` (mask.rs:110-112). -/
def Vec3.select (v rhs : Vec3 T) (mask : Vec3 Bool) : Vec3 T :=
  ⟨if mask.x then v.x else rhs.x, if mask.y then v.y else rhs.y, if mask.z then v.z else rhs.z⟩

/-- Selects components from `v` where the mask is true, else from `rhs` (mask.rs:110-112). -/
def Vec4.select (v rhs : Vec4 T) (mask : Vec4 Bool) : Vec4 T :=
  ⟨if mask.x then v.x else rhs.x, if mask.y then v.y else rhs.y,
   if mask.z then v.z else rhs.z, if mask.w then v.w else rhs.w⟩

/-! ### Mask reductions and boolean operators (mask.rs:118-156) -/

/-- True if any of the components is true (mask.rs:120-122). -/
def Vec2.any (v : Vec2 Bool) : Bool := v.x || v.y

/-- True if any of the components is true (mask.rs:120-122). -/
def Vec3.any (v : Vec3 Bool) : Bool := v.x || v.y || v.z

/-- True if any of the components is true (mask.rs:120-122). -/
def Vec4.any (v : Vec4 Bool) : Bool := v.x || v.y || v.z || v.w

/-- True if all the components are true (mask.rs:124-126). -/
def Vec2.all (v : Vec2 Bool) : Bool := v.x && v.y

/-- True if all the components are true (mask.rs:124-126). -/
def Vec3.all (v : Vec3 Bool) : Bool := v.x && v.y && v.z

/-- True if all the components are true (mask.rs:124-126). -/
def Vec4.all (v : Vec4 Bool) : Bool := v.x && v.y && v.z && v.w

/-- Component-wise boolean complement (mask.rs:151-156). -/
def Vec2.not (v : Vec2 Bool) : Vec2 Bool := ⟨!v.x, !v.y⟩

/-- Component-wise boolean complement (mask.rs:151-156). -/
def Vec3.not (v : Vec3 Bool) : Vec3 Bool := ⟨!v.x, !v.y, !v.z⟩

/-- Component-wise boolean complement (mask.rs:151-156). -/
def Vec4.not (v : Vec4 Bool) : Vec4 Bool := ⟨!v.x, !v.y, !v.z, !v.w⟩

/-! ### Geometric operations over `Float` scalars (vec.rs:543-593)

The Rust float types f32/f64 are modelled by `ℝ`; `sqrt` is `Real.sqrt`.
The derived `Default` of a vector is the component-wise default, i.e. the
zero vector for numeric scalars. -/

/-- The derived `Default` value: component-wise default, zero for numeric scalars. -/
def Vec2.default : Vec2 ℝ := ⟨0, 0⟩

/-- The derived `Default` value: component-wise default, zero for numeric scalars. -/
def Vec3.default : Vec3 ℝ := ⟨0, 0, 0⟩

/-- The derived `Default` value: component-wise default, zero for numeric scalars. -/
def Vec4.default : Vec4 ℝ := ⟨0, 0, 0, 0⟩

/-- The squared length of the vector (vec.rs:549-551). -/
noncomputable def Vec2.len_sqr (v : Vec2 ℝ) : ℝ := v.x * v.x + v.y * v.y

/-- The squared length of the vector (vec.rs:549-551). -/
noncomputable def Vec3.len_sqr (v : Vec3 ℝ) : ℝ := v.x * v.x + v.y * v.y + v.z * v.z

/-- The squared length of the vector (vec.rs:549-551). -/
noncomputable def Vec4.len_sqr (v : Vec4 ℝ) : ℝ :=
  v.x * v.x + v.y * v.y + v.z * v.z + v.w * v.w

/-- The length of the vector, `sqrt` of `len_sqr` (vec.rs:553-555). -/
noncomputable def Vec2.len (v : Vec2 ℝ) : ℝ := Real.sqrt v.len_sqr

/-- The length of the vector, `sqrt` of `len_sqr` (vec.rs:553-555). -/
noncomputable def Vec3.len (v : Vec3 ℝ) : ℝ := Real.sqrt v.len_sqr

/-- The length of the vector, `sqrt` of `len_sqr` (vec.rs:553-555). -/
noncomputable def Vec4.len (v : Vec4 ℝ) : ℝ := Real.sqrt v.len_sqr

/-- Division of a vector by a scalar, component-wise (vec.rs:735-740). -/
noncomputable def Vec2.divScalar (v : Vec2 ℝ) (c : ℝ) : Vec2 ℝ := ⟨v.x / c, v.y / c⟩

/-- Division of a vector by a scalar, component-wise (vec.rs:735-740). -/
noncomputable def Vec3.divScalar (v : Vec3 ℝ) (c : ℝ) : Vec3 ℝ := ⟨v.x / c, v.y / c, v.z / c⟩

/-- Division of a vector by a scalar, component-wise (vec.rs:735-740). -/
noncomputable def Vec4.divScalar (v : Vec4 ℝ) (c : ℝ) : Vec4 ℝ :=
  ⟨v.x / c, v.y / c, v.z / c, v.w / c⟩

/-- Multiplication of a vector by a scalar, component-wise (vec.rs:729-734). -/
noncomputable def Vec2.mulScalar (v : Vec2 ℝ) (c : ℝ) : Vec2 ℝ := ⟨v.x * c, v.y * c⟩

/-- Multiplication of a vector by a scalar, component-wise (vec.rs:729-734). -/
noncomputable def Vec3.mulScalar (v : Vec3 ℝ) (c : ℝ) : Vec3 ℝ := ⟨v.x * c, v.y * c, v.z * c⟩

/-- Multiplication of a vector by a scalar, component-wise (vec.rs:729-734). -/
noncomputable def Vec4.mulScalar (v : Vec4 ℝ) (c : ℝ) : Vec4 ℝ :=
  ⟨v.x * c, v.y * c, v.z * c, v.w * c⟩

/-- Normalizes the vector; length zero stays the default vector (vec.rs:564-573). -/
noncomputable def Vec2.norm (v : Vec2 ℝ) : Vec2 ℝ :=
  if v.len = 0 then Vec2.default else v.divScalar v.len

/-- Normalizes the vector; length zero stays the default vector (vec.rs:564-573). -/
noncomputable def Vec3.norm (v : Vec3 ℝ) : Vec3 ℝ :=
  if v.len = 0 then Vec3.default else v.divScalar v.len

/-- Normalizes the vector; length zero stays the default vector (vec.rs:564-573). -/
noncomputable def Vec4.norm (v : Vec4 ℝ) : Vec4 ℝ :=
  if v.len = 0 then Vec4.default else v.divScalar v.len

/-- Scales the vector towards a target length; length zero stays the default vector (vec.rs:574-583). -/
noncomputable def Vec2.resize (v : Vec2 ℝ) (len : ℝ) : Vec2 ℝ :=
  if v.len = 0 then Vec2.default else v.mulScalar (len / v.len)

/-- Scales the vector towards a target length; length zero stays the default vector (vec.rs:574-583). -/
noncomputable def Vec3.resize (v : Vec3 ℝ) (len : ℝ) : Vec3 ℝ :=
  if v.len = 0 then Vec3.default else v.mulScalar (len / v.len)

/-- Scales the vector towards a target length; length zero stays the default vector (vec.rs:574-583). -/
noncomputable def Vec4.resize (v : Vec4 ℝ) (len : ℝ) : Vec4 ℝ :=
  if v.len = 0 then Vec4.default else v.mulScalar (len / v.len)

/-- The inner product (vec.rs:589-592). -/
noncomputable def Vec2.dot (v rhs : Vec2 ℝ) : ℝ := v.x * rhs.x + v.y * rhs.y

/-- The inner product (vec.rs:589-592). -/
noncomputable def Vec3.dot (v rhs : Vec3 ℝ) : ℝ := v.x * rhs.x + v.y * rhs.y + v.z * rhs.z

/-- The inner product (vec.rs:589-592). -/
noncomputable def Vec4.dot (v rhs : Vec4 ℝ) : ℝ :=
  v.x * rhs.x + v.y * rhs.y + v.z * rhs.z + v.w * rhs.w

/-! ### Projection (spec section 4.4; not present under src/)

IEEE float division by a zero denominator produces a non-finite value
(NaN or Inf).  Since the projection operations are specified to have no
zero-length guard, their results are modelled as `Option`: `some r` for
a finite result, `none` for the non-finite outcome of dividing by zero. -/

/-- Modelled from the spec: checked real division standing in for IEEE float division, where a zero denominator yields a non-finite value, represented as `none`. -/
noncomputable def divF (a b : ℝ) : Option ℝ := if b = 0 then none else some (a / b)

/-- Modelled from the spec: `scalar_project` is missing from src/; per spec section 4.4 it is the scalar projection of `rhs` onto `v` by the standard dot-product formula, dividing by the receiver's length with no zero-length guard (the worked example in spec section 8 fixes the operand roles: `(3,4).scalar_project((1,2)) == 2.2 == dot/len(self)`). -/
noncomputable def Vec2.scalar_project (v rhs : Vec2 ℝ) : Option ℝ := divF (v.dot rhs) v.len

/-- Modelled from the spec: `scalar_project` is missing from src/; scalar projection of `rhs` onto `v`, dividing by the receiver's length with no zero-length guard. -/
noncomputable def Vec3.scalar_project (v rhs : Vec3 ℝ) : Option ℝ := divF (v.dot rhs) v.len

/-- Modelled from the spec: `scalar_project` is missing from src/; scalar projection of `rhs` onto `v`, dividing by the receiver's length with no zero-length guard. -/
noncomputable def Vec4.scalar_project (v rhs : Vec4 ℝ) : Option ℝ := divF (v.dot rhs) v.len

/-- Modelled from the spec: `project` is missing from src/; per spec section 4.4 it is the vector projection of `rhs` onto `v`, dividing by the projected-onto vector's squared length with no zero-length guard; a zero denominator makes every component non-finite, modelled as `none`. -/
noncomputable def Vec2.project (v rhs : Vec2 ℝ) : Option (Vec2 ℝ) :=
  if v.len_sqr = 0 then none else some (v.mulScalar (v.dot rhs / v.len_sqr))

/-- Modelled from the spec: `project` is missing from src/; vector projection of `rhs` onto `v`, dividing by the projected-onto vector's squared length with no zero-length guard. -/
noncomputable def Vec3.project (v rhs : Vec3 ℝ) : Option (Vec3 ℝ) :=
  if v.len_sqr = 0 then none else some (v.mulScalar (v.dot rhs / v.len_sqr))

/-- Modelled from the spec: `project` is missing from src/; vector projection of `rhs` onto `v`, dividing by the projected-onto vector's squared length with no zero-length guard. -/
noncomputable def Vec4.project (v rhs : Vec4 ℝ) : Option (Vec4 ℝ) :=
  if v.len_sqr = 0 then none else some (v.mulScalar (v.dot rhs / v.len_sqr))

/-! ### Integer packing (spec section 4.6; not present under src/)

Unsigned machine words are modelled as `ℕ` with explicit bounds.  Per
the spec, packing is little-endian in component order: component 0
occupies the least-significant `B` bits of the word. -/

/-- Modelled from the spec: the two-lane `unpack` helpers (64 to 2x32, 32 to 2x16, 16 to 2x8 bits) are missing from src/; lane `i` of the word `w` is bits `[B*i, B*(i+1))`, component 0 least significant. -/
def unpack2 (B w : ℕ) : Vec2 ℕ := ⟨w % 2 ^ B, w / 2 ^ B % 2 ^ B⟩

/-- Modelled from the spec: the two-lane `pack` helpers are missing from src/; the components, each below `2 ^ B`, are concatenated little-endian into one word. -/
def pack2 (B : ℕ) (v : Vec2 ℕ) : ℕ := v.x + v.y * 2 ^ B

/-- Modelled from the spec: the four-lane `unpack` helpers (64 to 4x16, 32 to 4x8 bits) are missing from src/; lane `i` of the word `w` is bits `[B*i, B*(i+1))`, component 0 least significant. -/
def unpack4 (B w : ℕ) : Vec4 ℕ :=
  ⟨w % 2 ^ B, w / 2 ^ B % 2 ^ B, w / 2 ^ B / 2 ^ B % 2 ^ B, w / 2 ^ B / 2 ^ B / 2 ^ B % 2 ^ B⟩

/-- Modelled from the spec: the four-lane `pack` helpers are missing from src/; the components, each below `2 ^ B`, are concatenated little-endian into one word. -/
def pack4 (B : ℕ) (v : Vec4 ℕ) : ℕ :=
  v.x + (v.y + (v.z + v.w * 2 ^ B) * 2 ^ B) * 2 ^ B

/-! ### Helper lemmas -/

theorem len2_nonneg (v : Vec2 ℝ) : 0 ≤ v.len := Real.sqrt_nonneg _

theorem len3_nonneg (v : Vec3 ℝ) : 0 ≤ v.len := Real.sqrt_nonneg _

theorem len4_nonneg (v : Vec4 ℝ) : 0 ≤ v.len := Real.sqrt_nonneg _

theorem len2_mulScalar (v : Vec2 ℝ) (c : ℝ) : (v.mulScalar c).len = |c| * v.len := by
  simp only [Vec2.len, Vec2.len_sqr, Vec2.mulScalar]
  rw [show v.x * c * (v.x * c) + v.y * c * (v.y * c) = c ^ 2 * (v.x * v.x + v.y * v.y) by ring,
    Real.sqrt_mul (sq_nonneg c), Real.sqrt_sq_eq_abs]

theorem len3_mulScalar (v : Vec3 ℝ) (c : ℝ) : (v.mulScalar c).len = |c| * v.len := by
  simp only [Vec3.len, Vec3.len_sqr, Vec3.mulScalar]
  rw [show v.x * c * (v.x * c) + v.y * c * (v.y * c) + v.z * c * (v.z * c) =
      c ^ 2 * (v.x * v.x + v.y * v.y + v.z * v.z) by ring,
    Real.sqrt_mul (sq_nonneg c), Real.sqrt_sq_eq_abs]

theorem len4_mulScalar (v : Vec4 ℝ) (c : ℝ) : (v.mulScalar c).len = |c| * v.len := by
  simp only [Vec4.len, Vec4.len_sqr, Vec4.mulScalar]
  rw [show v.x * c * (v.x * c) + v.y * c * (v.y * c) + v.z * c * (v.z * c) + v.w * c * (v.w * c) =
      c ^ 2 * (v.x * v.x + v.y * v.y + v.z * v.z + v.w * v.w) by ring,
    Real.sqrt_mul (sq_nonneg c), Real.sqrt_sq_eq_abs]

theorem resize2_len (v : Vec2 ℝ) (h : v.len ≠ 0) (l : ℝ) : (v.resize l).len = |l| := by
  rw [Vec2.resize, if_neg h, len2_mulScalar, abs_div, abs_of_nonneg (len2_nonneg v),
    div_mul_cancel₀ _ h]

theorem resize3_len (v : Vec3 ℝ) (h : v.len ≠ 0) (l : ℝ) : (v.resize l).len = |l| := by
  rw [Vec3.resize, if_neg h, len3_mulScalar, abs_div, abs_of_nonneg (len3_nonneg v),
    div_mul_cancel₀ _ h]

theorem resize4_len (v : Vec4 ℝ) (h : v.len ≠ 0) (l : ℝ) : (v.resize l).len = |l| := by
  rw [Vec4.resize, if_neg h, len4_mulScalar, abs_div, abs_of_nonneg (len4_nonneg v),
    div_mul_cancel₀ _ h]

theorem unpack2_pack2 (B x y : ℕ) (hx : x < 2 ^ B) (hy : y < 2 ^ B) :
    unpack2 B (pack2 B ⟨x, y⟩) = ⟨x, y⟩ := by
  simp only [unpack2, pack2, Vec2.mk.injEq]
  constructor
  · rw [Nat.add_mul_mod_self_right, Nat.mod_eq_of_lt hx]
  · rw [Nat.add_mul_div_right _ _ (by positivity : 0 < 2 ^ B), Nat.div_eq_of_lt hx, zero_add,
      Nat.mod_eq_of_lt hy]

theorem pack2_unpack2 (B w : ℕ) (hw : w < 2 ^ (2 * B)) : pack2 B (unpack2 B w) = w := by
  simp only [unpack2, pack2]
  have h1 : w / 2 ^ B < 2 ^ B := by
    rw [Nat.div_lt_iff_lt_mul (by positivity : 0 < 2 ^ B)]
    calc w < 2 ^ (2 * B) := hw
    _ = 2 ^ B * 2 ^ B := by rw [two_mul, pow_add]
  rw [Nat.mod_eq_of_lt h1, Nat.mod_add_div' w (2 ^ B)]

theorem unpack4_pack4 (B x y z w : ℕ) (hx : x < 2 ^ B) (hy : y < 2 ^ B) (hz : z < 2 ^ B)
    (hw : w < 2 ^ B) : unpack4 B (pack4 B ⟨x, y, z, w⟩) = ⟨x, y, z, w⟩ := by
  have hp : 0 < (2 : ℕ) ^ B := by positivity
  simp only [unpack4, pack4, Vec4.mk.injEq]
  have e1 : (x + (y + (z + w * 2 ^ B) * 2 ^ B) * 2 ^ B) / 2 ^ B = y + (z + w * 2 ^ B) * 2 ^ B := by
    rw [Nat.add_mul_div_right _ _ hp, Nat.div_eq_of_lt hx, zero_add]
  have e2 : (y + (z + w * 2 ^ B) * 2 ^ B) / 2 ^ B = z + w * 2 ^ B := by
    rw [Nat.add_mul_div_right _ _ hp, Nat.div_eq_of_lt hy, zero_add]
  have e3 : (z + w * 2 ^ B) / 2 ^ B = w := by
    rw [Nat.add_mul_div_right _ _ hp, Nat.div_eq_of_lt hz, zero_add]
  refine ⟨?_, ?_, ?_, ?_⟩
  · rw [Nat.add_mul_mod_self_right, Nat.mod_eq_of_lt hx]
  · rw [e1, Nat.add_mul_mod_self_right, Nat.mod_eq_of_lt hy]
  · rw [e1, e2, Nat.add_mul_mod_self_right, Nat.mod_eq_of_lt hz]
  · rw [e1, e2, e3, Nat.mod_eq_of_lt hw]

theorem pack4_unpack4 (B w : ℕ) (hw : w < 2 ^ (4 * B)) : pack4 B (unpack4 B w) = w := by
  simp only [unpack4, pack4]
  have h3 : w / 2 ^ B / 2 ^ B / 2 ^ B < 2 ^ B := by
    rw [Nat.div_div_eq_div_mul, Nat.div_div_eq_div_mul,
      Nat.div_lt_iff_lt_mul (by positivity : 0 < 2 ^ B * (2 ^ B * 2 ^ B))]
    calc w < 2 ^ (4 * B) := hw
    _ = 2 ^ B * (2 ^ B * (2 ^ B * 2 ^ B)) := by
      rw [show 4 * B = B + (B + (B + B)) by ring, pow_add, pow_add, pow_add]
  rw [Nat.mod_eq_of_lt h3, Nat.mod_add_div' (w / 2 ^ B / 2 ^ B) (2 ^ B),
    Nat.mod_add_div' (w / 2 ^ B) (2 ^ B), Nat.mod_add_div' w (2 ^ B)]

/-! ### Claim theorems -/

/-- C4: for every vector and every binary function `f`, `reduce f` left-folds the components in declaration order seeded with the `x` component, and `fold acc f` left-folds in the same order from the external seed; in particular `Vec3::new(5,3,2).reduce(sub) == 0` and `Vec3::new(5,3,2).fold(0, sub) == -10`. -/
theorem reduce_fold_left_order :
    (∀ (T : Type) (f : T → T → T) (v : Vec2 T),
      v.reduce f = [v.y].foldl f v.x ∧ ∀ acc, v.fold acc f = [v.x, v.y].foldl f acc) ∧
    (∀ (T : Type) (f : T → T → T) (v : Vec3 T),
      v.reduce f = [v.y, v.z].foldl f v.x ∧ ∀ acc, v.fold acc f = [v.x, v.y, v.z].foldl f acc) ∧
    (∀ (T : Type) (f : T → T → T) (v : Vec4 T),
      v.reduce f = [v.y, v.z, v.w].foldl f v.x ∧
      ∀ acc, v.fold acc f = [v.x, v.y, v.z, v.w].foldl f acc) ∧
    (Vec3.mk (5 : ℤ) 3 2).reduce (fun acc c => acc - c) = 0 ∧
    (Vec3.mk (5 : ℤ) 3 2).fold 0 (fun acc c => acc - c) = -10 :=
  ⟨fun T f v => ⟨rfl, fun acc => rfl⟩, fun T f v => ⟨rfl, fun acc => rfl⟩,
    fun T f v => ⟨rfl, fun acc => rfl⟩, by decide, by decide⟩

/-- C5: the elementwise comparisons are reflexive for vectors of dimension 2, 3 and 4 over each supported scalar kind (signed integers modelled by `ℤ`, floats modelled by `ℝ`): `v.eq(v).all() == true` and `v.lt(v).any() == false`. -/
theorem elementwise_identity_refl :
    (∀ v : Vec2 ℤ, (v.eq v).all = true ∧ (v.lt v).any = false) ∧
    (∀ v : Vec3 ℤ, (v.eq v).all = true ∧ (v.lt v).any = false) ∧
    (∀ v : Vec4 ℤ, (v.eq v).all = true ∧ (v.lt v).any = false) ∧
    (∀ v : Vec2 ℝ, (v.eq v).all = true ∧ (v.lt v).any = false) ∧
    (∀ v : Vec3 ℝ, (v.eq v).all = true ∧ (v.lt v).any = false) ∧
    (∀ v : Vec4 ℝ, (v.eq v).all = true ∧ (v.lt v).any = false) := by
  refine ⟨fun v => ⟨?_, ?_⟩, fun v => ⟨?_, ?_⟩, fun v => ⟨?_, ?_⟩,
    fun v => ⟨?_, ?_⟩, fun v => ⟨?_, ?_⟩, fun v => ⟨?_, ?_⟩⟩ <;>
    simp [Vec2.eq, Vec2.all, Vec2.lt, Vec2.any, Vec3.eq, Vec3.all, Vec3.lt, Vec3.any,
      Vec4.eq, Vec4.all, Vec4.lt, Vec4.any]

/-- C6: `Vec2::cross(a, b)` is the scalar `a.x*b.y - a.y*b.x`, which is the z-component of the 3D cross product of the inputs embedded at `z = 0`, and `Vec3::cross` is the standard determinant expansion; concretely `Vec2::cross((3,4),(-1,2)) == 10` and `Vec3::cross((3,-3,1),(4,9,1)) == (-12,1,39)`. -/
theorem cross_product_spec :
    (∀ a b : Vec2 ℤ, Vec2.cross a b = a.x * b.y - a.y * b.x ∧
      Vec2.cross a b = (Vec3.cross ⟨a.x, a.y, 0⟩ ⟨b.x, b.y, 0⟩).z) ∧
    (∀ a b : Vec3 ℤ, Vec3.cross a b =
      ⟨a.y * b.z - a.z * b.y, a.z * b.x - a.x * b.z, a.x * b.y - a.y * b.x⟩) ∧
    Vec2.cross (Vec2.mk (3 : ℤ) 4) ⟨-1, 2⟩ = 10 ∧
    Vec3.cross (Vec3.mk (3 : ℤ) (-3) 1) ⟨4, 9, 1⟩ = ⟨-12, 1, 39⟩ :=
  ⟨fun a b => ⟨rfl, rfl⟩, fun a b => rfl, by decide, by decide⟩

/-- C8: each `set_<axis>` operation returns a copy of the vector in which exactly the named component equals the supplied value and every other component is unchanged, for all three dimensions. -/
theorem set_axis_frame : ∀ (T : Type) (u : T),
    (∀ v : Vec2 T,
      ((v.set_x u).x = u ∧ (v.set_x u).y = v.y) ∧
      ((v.set_y u).y = u ∧ (v.set_y u).x = v.x)) ∧
    (∀ v : Vec3 T,
      ((v.set_x u).x = u ∧ (v.set_x u).y = v.y ∧ (v.set_x u).z = v.z) ∧
      ((v.set_y u).y = u ∧ (v.set_y u).x = v.x ∧ (v.set_y u).z = v.z) ∧
      ((v.set_z u).z = u ∧ (v.set_z u).x = v.x ∧ (v.set_z u).y = v.y)) ∧
    (∀ v : Vec4 T,
      ((v.set_x u).x = u ∧ (v.set_x u).y = v.y ∧ (v.set_x u).z = v.z ∧ (v.set_x u).w = v.w) ∧
      ((v.set_y u).y = u ∧ (v.set_y u).x = v.x ∧ (v.set_y u).z = v.z ∧ (v.set_y u).w = v.w) ∧
      ((v.set_z u).z = u ∧ (v.set_z u).x = v.x ∧ (v.set_z u).y = v.y ∧ (v.set_z u).w = v.w) ∧
      ((v.set_w u).w = u ∧ (v.set_w u).x = v.x ∧ (v.set_w u).y = v.y ∧ (v.set_w u).z = v.z)) :=
  fun T u =>
    ⟨fun v => ⟨⟨rfl, rfl⟩, ⟨rfl, rfl⟩⟩,
     fun v => ⟨⟨rfl, rfl, rfl⟩, ⟨rfl, rfl, rfl⟩, ⟨rfl, rfl, rfl⟩⟩,
     fun v => ⟨⟨rfl, rfl, rfl, rfl⟩, ⟨rfl, rfl, rfl, rfl⟩,
       ⟨rfl, rfl, rfl, rfl⟩, ⟨rfl, rfl, rfl, rfl⟩⟩⟩

/-- C9: the two 90-degree rotations of `Vec2` are mutual inverses over the built-in scalar kinds (signed integers modelled by `ℤ`, floats modelled by `ℝ`): `v.ccw().cw() == v` and `v.cw().ccw() == v`. -/
theorem ccw_cw_inverse :
    (∀ v : Vec2 ℤ, v.ccw.cw = v ∧ v.cw.ccw = v) ∧
    (∀ v : Vec2 ℝ, v.ccw.cw = v ∧ v.cw.ccw = v) := by
  refine ⟨fun v => ?_, fun v => ?_⟩ <;>
    · obtain ⟨x, y⟩ := v
      exact ⟨by simp [Vec2.ccw, Vec2.cw], by simp [Vec2.ccw, Vec2.cw]⟩

/-- C10: selecting with the complemented mask swaps the roles of the two operands: `v.select(w, m) == w.select(v, !m)` for every component type and all three dimensions. -/
theorem select_mask_complement :
    (∀ (T : Type) (v w : Vec2 T) (m : Vec2 Bool), v.select w m = w.select v m.not) ∧
    (∀ (T : Type) (v w : Vec3 T) (m : Vec3 Bool), v.select w m = w.select v m.not) ∧
    (∀ (T : Type) (v w : Vec4 T) (m : Vec4 Bool), v.select w m = w.select v m.not) := by
  refine ⟨fun T v w m => ?_, fun T v w m => ?_, fun T v w m => ?_⟩
  · obtain ⟨mx, my⟩ := m
    cases mx <;> cases my <;> simp [Vec2.select, Vec2.not]
  · obtain ⟨mx, my, mz⟩ := m
    cases mx <;> cases my <;> cases mz <;> simp [Vec3.select, Vec3.not]
  · obtain ⟨mx, my, mz, mw⟩ := m
    cases mx <;> cases my <;> cases mz <;> cases mw <;> simp [Vec4.select, Vec4.not]

/-- C1 counterexample: the claim as stated fails for a negative target length. The vector `(1, 0)` has nonzero length, yet `(1, 0).resize(-2) = (-2, 0)` has length `2`, not the given value `-2`. -/
theorem resize_negative_target_cex :
    (Vec2.mk (1 : ℝ) 0).len ≠ 0 ∧ ((Vec2.mk (1 : ℝ) 0).resize (-2)).len ≠ -2 := by
  have hlen : (Vec2.mk (1 : ℝ) 0).len = 1 := by
    simp [Vec2.len, Vec2.len_sqr]
  have hne : (Vec2.mk (1 : ℝ) 0).len ≠ 0 := by rw [hlen]; norm_num
  refine ⟨hne, ?_⟩
  rw [resize2_len _ hne, abs_neg, abs_two]
  norm_num

/-- C1 (amended): for float vectors of dimension 2, 3 or 4 (floats modelled by `ℝ`), a vector of length exactly zero normalizes to the all-default zero vector and resizes to it for every target length; a vector of nonzero length normalizes by dividing every component by the length, and `resize(len)` scales it so that its length equals the absolute value of the given target (the target itself whenever it is nonnegative). -/
theorem norm_resize_degenerate_and_scaling :
    (∀ v : Vec2 ℝ,
      (v.len = 0 → v.norm = Vec2.default ∧ ∀ l, v.resize l = Vec2.default) ∧
      (v.len ≠ 0 → (v.norm.x = v.x / v.len ∧ v.norm.y = v.y / v.len) ∧
        ∀ l, (v.resize l).len = |l|)) ∧
    (∀ v : Vec3 ℝ,
      (v.len = 0 → v.norm = Vec3.default ∧ ∀ l, v.resize l = Vec3.default) ∧
      (v.len ≠ 0 → (v.norm.x = v.x / v.len ∧ v.norm.y = v.y / v.len ∧ v.norm.z = v.z / v.len) ∧
        ∀ l, (v.resize l).len = |l|)) ∧
    (∀ v : Vec4 ℝ,
      (v.len = 0 → v.norm = Vec4.default ∧ ∀ l, v.resize l = Vec4.default) ∧
      (v.len ≠ 0 → (v.norm.x = v.x / v.len ∧ v.norm.y = v.y / v.len ∧
          v.norm.z = v.z / v.len ∧ v.norm.w = v.w / v.len) ∧
        ∀ l, (v.resize l).len = |l|)) := by
  refine ⟨fun v => ⟨fun h => ⟨?_, fun l => ?_⟩, fun h => ⟨⟨?_, ?_⟩, fun l => ?_⟩⟩,
    fun v => ⟨fun h => ⟨?_, fun l => ?_⟩, fun h => ⟨⟨?_, ?_, ?_⟩, fun l => ?_⟩⟩,
    fun v => ⟨fun h => ⟨?_, fun l => ?_⟩, fun h => ⟨⟨?_, ?_, ?_, ?_⟩, fun l => ?_⟩⟩⟩
  · rw [Vec2.norm, if_pos h]
  · rw [Vec2.resize, if_pos h]
  · rw [Vec2.norm, if_neg h]; rfl
  · rw [Vec2.norm, if_neg h]; rfl
  · exact resize2_len v h l
  · rw [Vec3.norm, if_pos h]
  · rw [Vec3.resize, if_pos h]
  · rw [Vec3.norm, if_neg h]; rfl
  · rw [Vec3.norm, if_neg h]; rfl
  · rw [Vec3.norm, if_neg h]; rfl
  · exact resize3_len v h l
  · rw [Vec4.norm, if_pos h]
  · rw [Vec4.resize, if_pos h]
  · rw [Vec4.norm, if_neg h]; rfl
  · rw [Vec4.norm, if_neg h]; rfl
  · rw [Vec4.norm, if_neg h]; rfl
  · rw [Vec4.norm, if_neg h]; rfl
  · exact resize4_len v h l

/-- C1 witness: the zero vector normalizes to the zero vector, and `(3, 4).resize(5)` has length `|5|`. -/
theorem norm_resize_degenerate_and_scaling_witness :
    (Vec2.mk (0 : ℝ) 0).norm = Vec2.default ∧
    ((Vec2.mk (3 : ℝ) 4).resize 5).len = |(5 : ℝ)| := by
  have h0 : (Vec2.mk (0 : ℝ) 0).len = 0 := by simp [Vec2.len, Vec2.len_sqr]
  have h34 : (Vec2.mk (3 : ℝ) 4).len ≠ 0 := by
    have h5 : (Vec2.mk (3 : ℝ) 4).len = 5 := by
      simp only [Vec2.len, Vec2.len_sqr]
      rw [show (3 : ℝ) * 3 + 4 * 4 = 5 ^ 2 by norm_num,
        Real.sqrt_sq (by norm_num : (0 : ℝ) ≤ 5)]
    rw [h5]; norm_num
  exact ⟨((norm_resize_degenerate_and_scaling.1 _).1 h0).1,
    ((norm_resize_degenerate_and_scaling.1 _).2 h34).2 5⟩

/-- C2: for every supported word size (64 to 2x32, 32 to 2x16, 16 to 2x8, 64 to 4x16, 32 to 4x8 bits), `unpack(pack(v)) == v` for every vector of in-range unsigned components and `pack(unpack(w)) == w` for every unsigned word, component 0 in the least-significant bits. -/
theorem pack_unpack_roundtrip :
    (∀ v : Vec2 ℕ, v.x < 2 ^ 32 → v.y < 2 ^ 32 → unpack2 32 (pack2 32 v) = v) ∧
    (∀ w : ℕ, w < 2 ^ 64 → pack2 32 (unpack2 32 w) = w) ∧
    (∀ v : Vec2 ℕ, v.x < 2 ^ 16 → v.y < 2 ^ 16 → unpack2 16 (pack2 16 v) = v) ∧
    (∀ w : ℕ, w < 2 ^ 32 → pack2 16 (unpack2 16 w) = w) ∧
    (∀ v : Vec2 ℕ, v.x < 2 ^ 8 → v.y < 2 ^ 8 → unpack2 8 (pack2 8 v) = v) ∧
    (∀ w : ℕ, w < 2 ^ 16 → pack2 8 (unpack2 8 w) = w) ∧
    (∀ v : Vec4 ℕ, v.x < 2 ^ 16 → v.y < 2 ^ 16 → v.z < 2 ^ 16 → v.w < 2 ^ 16 →
      unpack4 16 (pack4 16 v) = v) ∧
    (∀ w : ℕ, w < 2 ^ 64 → pack4 16 (unpack4 16 w) = w) ∧
    (∀ v : Vec4 ℕ, v.x < 2 ^ 8 → v.y < 2 ^ 8 → v.z < 2 ^ 8 → v.w < 2 ^ 8 →
      unpack4 8 (pack4 8 v) = v) ∧
    (∀ w : ℕ, w < 2 ^ 32 → pack4 8 (unpack4 8 w) = w) := by
  refine ⟨?_, ?_, ?_, ?_, ?_, ?_, ?_, ?_, ?_, ?_⟩
  · rintro ⟨x, y⟩ hx hy; exact unpack2_pack2 32 x y hx hy
  · intro w hw; exact pack2_unpack2 32 w hw
  · rintro ⟨x, y⟩ hx hy; exact unpack2_pack2 16 x y hx hy
  · intro w hw; exact pack2_unpack2 16 w hw
  · rintro ⟨x, y⟩ hx hy; exact unpack2_pack2 8 x y hx hy
  · intro w hw; exact pack2_unpack2 8 w hw
  · rintro ⟨x, y, z, u⟩ hx hy hz hu; exact unpack4_pack4 16 x y z u hx hy hz hu
  · intro w hw; exact pack4_unpack4 16 w hw
  · rintro ⟨x, y, z, u⟩ hx hy hz hu; exact unpack4_pack4 8 x y z u hx hy hz hu
  · intro w hw; exact pack4_unpack4 8 w hw

/-- C2 witness: a mixed two-lane 32-bit pattern round-trips through `pack`/`unpack`, and the four-lane 8-bit word `0xFFC08040` survives `unpack` then `pack`. -/
theorem pack_unpack_roundtrip_witness :
    unpack2 32 (pack2 32 ⟨0xDEADBEEF, 0x12345678⟩) = ⟨0xDEADBEEF, 0x12345678⟩ ∧
    pack4 8 (unpack4 8 0xFFC08040) = 0xFFC08040 :=
  ⟨pack_unpack_roundtrip.1 ⟨0xDEADBEEF, 0x12345678⟩ (by norm_num) (by norm_num),
   pack_unpack_roundtrip.2.2.2.2.2.2.2.2.2 0xFFC08040 (by norm_num)⟩

/-- C3: `scalar_project` and `project` use the standard dot-product formula with no zero-length guard: `(3,4).scalar_project((1,2)) == 2.2`, and projecting onto a zero vector yields a non-finite result (`none` in the model) rather than a zero fallback, for all three dimensions. -/
theorem projection_formula_and_zero_asymmetry :
    (Vec2.mk (3 : ℝ) 4).scalar_project (Vec2.mk 1 2) = some 2.2 ∧
    (∀ v rhs : Vec2 ℝ, v.len ≠ 0 → v.scalar_project rhs = some (v.dot rhs / v.len)) ∧
    (∀ rhs : Vec2 ℝ, (Vec2.mk (0 : ℝ) 0).scalar_project rhs = none ∧
      (Vec2.mk (0 : ℝ) 0).project rhs = none) ∧
    (∀ rhs : Vec3 ℝ, (Vec3.mk (0 : ℝ) 0 0).scalar_project rhs = none ∧
      (Vec3.mk (0 : ℝ) 0 0).project rhs = none) ∧
    (∀ rhs : Vec4 ℝ, (Vec4.mk (0 : ℝ) 0 0 0).scalar_project rhs = none ∧
      (Vec4.mk (0 : ℝ) 0 0 0).project rhs = none) := by
  have h5 : (Vec2.mk (3 : ℝ) 4).len = 5 := by
    simp only [Vec2.len, Vec2.len_sqr]
    rw [show (3 : ℝ) * 3 + 4 * 4 = 5 ^ 2 by norm_num,
      Real.sqrt_sq (by norm_num : (0 : ℝ) ≤ 5)]
  refine ⟨?_, fun v rhs h => ?_, fun rhs => ⟨?_, ?_⟩, fun rhs => ⟨?_, ?_⟩, fun rhs => ⟨?_, ?_⟩⟩
  · simp only [Vec2.scalar_project, divF, Vec2.dot, h5]
    rw [if_neg (by norm_num : (5 : ℝ) ≠ 0)]
    norm_num
  · rw [Vec2.scalar_project, divF, if_neg h]
  · simp [Vec2.scalar_project, divF, Vec2.len, Vec2.len_sqr]
  · simp [Vec2.project, Vec2.len_sqr]
  · simp [Vec3.scalar_project, divF, Vec3.len, Vec3.len_sqr]
  · simp [Vec3.project, Vec3.len_sqr]
  · simp [Vec4.scalar_project, divF, Vec4.len, Vec4.len_sqr]
  · simp [Vec4.project, Vec4.len_sqr]

/-- C3 witness: the vector `(3, 4)` has nonzero length and its scalar projection applied to `(1, 2)` equals the dot product divided by the receiver's length. -/
theorem projection_formula_and_zero_asymmetry_witness :
    (Vec2.mk (3 : ℝ) 4).len ≠ 0 ∧
    (Vec2.mk (3 : ℝ) 4).scalar_project (Vec2.mk 1 2) =
      some ((Vec2.mk (3 : ℝ) 4).dot (Vec2.mk 1 2) / (Vec2.mk (3 : ℝ) 4).len) := by
  have h34 : (Vec2.mk (3 : ℝ) 4).len ≠ 0 := by
    have h5 : (Vec2.mk (3 : ℝ) 4).len = 5 := by
      simp only [Vec2.len, Vec2.len_sqr]
      rw [show (3 : ℝ) * 3 + 4 * 4 = 5 ^ 2 by norm_num,
        Real.sqrt_sq (by norm_num : (0 : ℝ) ≤ 5)]
    rw [h5]; norm_num
  exact ⟨h34, projection_formula_and_zero_asymmetry.2.1 _ _ h34⟩

end Cgm
